import Mathlib

/-!
Verification development for the Verilog grading pipeline of this judge-server
fork.  The development shallowly embeds the three source files

  * dmoj/checkers/verilogchecker.py   (stdout-protocol verdict checker)
  * dmoj/executors/c_like_executor.py (compile stage shared by C-like languages)
  * dmoj/executors/VLOG.py            (Verilog executor: compile args, sandbox
                                       syscall list, waveform postprocessor and
                                       the PPA synthesis verifier)

Python strings/bytes are modelled as `List Char` in the checker section (where
character-level reasoning is needed) and as `String` in the executor section.
Machine-level details that the claims do not touch (exact float formatting,
`repr` escaping of non-printable characters, non-ASCII Unicode whitespace) are
noted next to the definitions that elide them.
-/

namespace VerilogChecker

/-- Text is modelled as a list of characters (Python `str`/`bytes` after the
lossy decode `proc_out.decode(errors='ignore')`). -/
abbrev Str := List Char

/-- Python whitespace for `str.strip()` / regex `\s`, restricted to the ASCII
range (the Unicode-only space characters are elided; every input considered in
the theorems below is ASCII). -/
def isWS (c : Char) : Bool :=
  c = ' ' || c = '\t' || c = '\n' || c = '\r' || c = '\x0b' || c = '\x0c'

/-- Line-boundary characters of Python `str.splitlines`, ASCII range. -/
def isLB (c : Char) : Bool :=
  c = '\n' || c = '\r' || c = '\x0b' || c = '\x0c'

/-- ASCII upper-casing, used to model the `re.I` (case-insensitive) matching of
the checker's regexes. -/
def upc : Char → Char
  | 'a' => 'A'
  | 'b' => 'B'
  | 'c' => 'C'
  | 'd' => 'D'
  | 'e' => 'E'
  | 'f' => 'F'
  | 'g' => 'G'
  | 'h' => 'H'
  | 'i' => 'I'
  | 'j' => 'J'
  | 'k' => 'K'
  | 'l' => 'L'
  | 'm' => 'M'
  | 'n' => 'N'
  | 'o' => 'O'
  | 'p' => 'P'
  | 'q' => 'Q'
  | 'r' => 'R'
  | 's' => 'S'
  | 't' => 'T'
  | 'u' => 'U'
  | 'v' => 'V'
  | 'w' => 'W'
  | 'x' => 'X'
  | 'y' => 'Y'
  | 'z' => 'Z'
  | c => c

/-- Python `str.strip()`: drop whitespace from both ends. -/
def pyStrip (s : Str) : Str :=
  ((s.dropWhile isWS).reverse.dropWhile isWS).reverse

/-- Split at every line-boundary character.  Python's `splitlines` treats
`\r\n` as a single boundary; splitting at each character instead inserts an
extra empty segment there, which the blank-line filter below removes, so the
non-blank stripped lines agree with Python's. -/
def splitLB : Str → List Str
  | [] => [[]]
  | c :: cs =>
    if isLB c then [] :: splitLB cs
    else
      match splitLB cs with
      | [] => [[c]]
      | l :: ls => (c :: l) :: ls

/-- `[l.strip() for l in text.splitlines() if l.strip()]`. -/
def nonBlankLines (t : Str) : List Str :=
  ((splitLB t).map pyStrip).filter (fun l => l ≠ [])

/-- Case-insensitive literal-prefix matcher: consume `pat` from the front of
`s`, comparing characters up to ASCII case; return the remainder. -/
def ciPrefix : Str → Str → Option Str
  | [], s => some s
  | _ :: _, [] => none
  | p :: ps, c :: cs => if upc c = upc p then ciPrefix ps cs else none

/-- `re.match(r'^RESULT:\s*OK$', last, re.I)` viewed as a Boolean test. -/
def matchOK (l : Str) : Bool :=
  match ciPrefix "RESULT:".data l with
  | none => false
  | some rest =>
    match ciPrefix "OK".data (rest.dropWhile isWS) with
    | some [] => true
    | _ => false

/-- Numeric value of a non-empty ASCII digit string (`int` of the group). -/
def digitsToNat (ds : Str) : Nat :=
  ds.foldl (fun n c => n * 10 + (c.toNat - 48)) 0

/-- `re.match(r'^RESULT:\s*WA\s+(\d+)', last, re.I)`: on success, the integer
captured by the group.  The pattern has no `$` anchor, so trailing text after
the digits is accepted, exactly as in the source. -/
def matchWA (l : Str) : Option Nat :=
  match ciPrefix "RESULT:".data l with
  | none => none
  | some r1 =>
    match ciPrefix "WA".data (r1.dropWhile isWS) with
    | none => none
    | some r2 =>
      match r2 with
      | [] => none
      | c :: _ =>
        if isWS c then
          let digits := (r2.dropWhile isWS).takeWhile Char.isDigit
          if digits = [] then none else some (digitsToNat digits)
        else none

/-- `re.match(r'^RESULT:\s*WA\s+TIMEOUT', last, re.I)` (again unanchored at
the end). -/
def matchWATimeout (l : Str) : Bool :=
  match ciPrefix "RESULT:".data l with
  | none => false
  | some r1 =>
    match ciPrefix "WA".data (r1.dropWhile isWS) with
    | none => false
    | some r2 =>
      match r2 with
      | [] => false
      | c :: _ => isWS c && (ciPrefix "TIMEOUT".data (r2.dropWhile isWS)).isSome

/-- The `CheckerResult` the checker constructs (`dmoj.result.CheckerResult`):
pass flag, awarded points, optional short feedback, optional extended
feedback. -/
structure CheckerResult where
  passed : Bool
  points : ℚ
  feedback : Option Str
  extended_feedback : Option Str
deriving DecidableEq

/-- An apostrophe character (used by Python `repr`). -/
def quoteCh : Char := '\''

/-- Rendering of `Option` values by Python f-strings (`None` or the value). -/
def pyOptNat : Option Nat → Str
  | none => "None".data
  | some n => (toString n).data

/-- Rendering of the optional `result_flag` integer in the f-string. -/
def pyOptInt : Option Int → Str
  | none => "None".data
  | some n => (toString n).data

/-- The `!r` (repr) conversion applied to `(res.feedback or b"")[:200]`: an
empty feedback is the bytes literal `b''`; otherwise the (string) feedback is
sliced to 200 characters and quoted.  `repr`'s escaping of quotes and
non-printable characters is elided: the feedback strings the judge produces
(C++ exception identifiers) contain neither. -/
def reprFeedback (fb : Str) : Str :=
  if fb = [] then "b".data ++ [quoteCh, quoteCh]
  else quoteCh :: (fb.take 200 ++ [quoteCh])

/-- `check(proc_out, judge_out, **kw)` from dmoj/checkers/verilogchecker.py.
Inputs beyond the two streams are the keyword data the judge passes:
`res.feedback` (the result object's feedback field), the case's
`output_limit_length`, the result flag, and `point_value`.  `judge_out` is
unused, exactly as in the source. -/
def check (proc_out : Str) (_judge_out : Str) (res_feedback : Str)
    (limit : Option Nat) (result_flag : Option Int) (point_value : ℚ) :
    CheckerResult :=
  if pyStrip proc_out = [] then
    { passed := false, points := 0
      feedback := some ("no output on stdout (limit=".data ++ pyOptNat limit ++
        ", flag=".data ++ pyOptInt result_flag ++ ")".data)
      extended_feedback := some ("stderr_first200=".data ++ reprFeedback res_feedback) }
  else
    let last := (nonBlankLines proc_out).getLastD []
    if matchOK last then
      { passed := true, points := point_value, feedback := none, extended_feedback := none }
    else
      match matchWA last with
      | some errs =>
        { passed := false, points := 0
          feedback := some ((toString errs).data ++ " mismatch(es)".data)
          extended_feedback := none }
      | none =>
        if matchWATimeout last then
          { passed := false, points := 0, feedback := some "timeout".data
            extended_feedback := none }
        else
          { passed := false, points := 0, feedback := some "format error".data
            extended_feedback := some (last.take 120) }

/-- Characters allowed in the regex group `[A-Za-z0-9_:]`. -/
def nameChar (c : Char) : Bool := c.isAlphanum || c = '_' || c = ':'

/-- The literal part of the stderr regex in c_like_executor.py, up to and
including the opening quote before the captured exception name. -/
def termPat : Str :=
  "terminate called after throwing an instance of ".data ++ [quoteCh]

/-- Consume an exact literal prefix, returning the remainder. -/
def dropPre : Str → Str → Option Str
  | [], s => some s
  | _ :: _, [] => none
  | p :: ps, c :: cs => if c = p then dropPre ps cs else none

/-- End-of-line for Python's multiline `$`: end of input or before `\n`. -/
def atEOL : Str → Bool
  | [] => true
  | '\n' :: _ => true
  | _ => false

/-- Try to match `terminate called after throwing an instance of
'([A-Za-z0-9_:]+)'\r?$` at the head of `s`; on success return the captured
name. -/
def matchTermAt (s : Str) : Option Str :=
  match dropPre termPat s with
  | none => none
  | some rest =>
    let name := rest.takeWhile nameChar
    if name = [] then none
    else
      match rest.drop name.length with
      | [] => none
      | c :: r3 =>
        if c = quoteCh then
          match r3 with
          | '\r' :: r4 => if atEOL r4 then some name else none
          | _ => if atEOL r3 then some name else none
        else none

/-- The last match of the pattern anywhere in the text (the source keeps the
last element of `finditer` via a `deque(maxlen=1)`). -/
def termScan : Str → Option Str
  | [] => none
  | c :: cs =>
    match termScan cs with
    | some r => some r
    | none => matchTermAt (c :: cs)

/-- `dmoj.utils.cpp_demangle.demangle`, an external collaborator outside the
modelled sources; modelled as the identity on the captured (already
identifier-shaped) name. -/
def demangle (s : Str) : Str := s

/-- `CLikeExecutor.parse_feedback_from_stderr` from c_like_executor.py: the
judge derives the result object's `feedback` field from captured stderr with
this function.  Empty or oversized stderr yields no feedback; otherwise the
last C++ `terminate called …` line's exception name (at most 40 characters)
is reported. -/
def parse_feedback_from_stderr (stderr : Str) : Str :=
  if stderr = [] ∨ stderr.length > 2048 then []
  else
    match termScan stderr with
    | none => []
    | some exc => if exc.length > 40 then [] else demangle exc

/-- Substring test (`needle` occurs contiguously in `hay`). -/
def isSubseg (hay needle : Str) : Bool :=
  match hay with
  | [] => needle.isPrefixOf ([] : Str)
  | _ :: t => needle.isPrefixOf hay || isSubseg t needle

end VerilogChecker

namespace CLike

/-- `MAX_ERRORS` from c_like_executor.py. -/
def MAX_ERRORS : Nat := 5

/-- The inputs `get_binary_cache_key` reads (c_like_executor.py): the problem
id, the resolved compiler command, the `-march` flag computed by
`get_march_flag` (a function of external runtime configuration, so taken as an
input), the per-submission defines, the class flag list and `std` setting, and
the source bytes (`source_dict.values()` in insertion order).  `get_ldflags`
returns the empty list in the source, so no field is needed for it. -/
structure CacheInputs where
  problem : String
  command : String
  march : String
  defines : List String
  flags : List String
  std : Option String
  sources : List String
deriving DecidableEq

/-- `CLikeExecutor.get_defines`. -/
def get_defines (defines : List String) : List String :=
  "-DONLINE_JUDGE" :: defines

/-- `CLikeExecutor.get_flags`: the class flags plus the optional
`-std=` flag. -/
def get_flags (flags : List String) (std : Option String) : List String :=
  flags ++ (match std with | none => [] | some s => ["-std=" ++ s])

/-- `GCCMixin.get_flags`: the base flags plus `-fmax-errors=MAX_ERRORS`. -/
def gcc_get_flags (flags : List String) (std : Option String) : List String :=
  get_flags flags std ++ ["-fmax-errors=" ++ toString MAX_ERRORS]

/-- `CLikeExecutor.get_ldflags` (returns `[]` in the source). -/
def get_ldflags : List String := []

/-- `CLikeExecutor.get_binary_cache_key`: the components are joined with *no*
separator (`''.join(key_components)`) and the raw source bytes are
concatenated after them (`b''.join(self.source_dict.values())`).  The Verilog
executor resolves `get_flags` through `GCCMixin`. -/
def get_binary_cache_key (i : CacheInputs) : String :=
  String.join ([i.problem, i.command, i.march] ++ get_defines i.defines ++
    gcc_get_flags i.flags i.std ++ get_ldflags) ++ String.join i.sources

end CLike

namespace VLOG

/-- `dmoj.result.Result` flag values (dmoj/result.py is not among the modelled
sources).  `AC`/`WA`/`IE` follow upstream dmoj (`AC = 0`, `IE = 1 <<< 30`). -/
def AC : Nat := 0

/-- Wrong answer flag (upstream dmoj `WA = 1 <<< 0`). -/
def WA : Nat := 1

/-- Modelled from the spec: the dedicated "performance-limit-exceeded" verdict
state (`Result.PLE`) that the synthesis verifier writes; dmoj/result.py, where
its numeric code lives, is not among the modelled sources.  Only its
distinctness from the other flags matters below. -/
def PLE : Nat := 128

/-- Internal error flag (upstream dmoj `IE = 1 <<< 30`). -/
def IE : Nat := 1073741824

/-- The mutable fields of the judge `Result` object that
`populate_result` / `_process_waveform` / `_process_ppa` touch. -/
structure JudgeResult where
  result_flag : Nat
  points : ℚ
  feedback : Option String
  extended_feedback : Option String
deriving DecidableEq

/-- A scalar JSON value inside the provider's metrics payload: a number, a
string (for sentinels such as `"N/A"`), or `null` (Python `None`).  Comparing
a non-number against a numeric threshold raises `TypeError` in the source and
is caught; `cmpLt`/`cmpGt` model this with `none`. -/
inductive JVal where
  | num (q : ℚ)
  | str (s : String)
  | null
deriving DecidableEq

/-- Python `value < threshold` under `try/except (ValueError, TypeError)`:
`none` models the raised-and-caught comparison. -/
def cmpLt : JVal → ℚ → Option Bool
  | .num q, t => some (decide (q < t))
  | _, _ => none

/-- Python `value > threshold` under the same `try/except`. -/
def cmpGt : JVal → ℚ → Option Bool
  | .num q, t => some (decide (q > t))
  | _, _ => none

/-- Rendering of a payload value by an f-string.  Exact Python float
formatting is elided (numbers print via `ℚ`'s `toString`); none of the
theorems depends on the digits produced. -/
def jstr : JVal → String
  | .num q => toString q
  | .str s => s
  | .null => "None"

/-- F4PGA response payload: `ppaFmax = json.loads(data["PPA"])["Fmax"]`;
`none` models that extraction raising (missing key / second decode failing),
which the source catches. -/
structure F4Payload where
  ppaFmax : Option JVal
deriving DecidableEq

/-- The four OpenLane metrics extracted by `_check_openlane_targets`. -/
structure OLMetrics where
  critical_path_ns : JVal
  coreArea_um2 : JVal
  power_total : JVal
  ppa_score : JVal
deriving DecidableEq

/-- OpenLane response payload: the `success` field checked by
`_execute_openlane` and the metrics object; `metrics = none` models the
nested extraction raising inside `_check_openlane_targets`. -/
structure OLPayload where
  success : Bool
  metrics : Option OLMetrics
deriving DecidableEq

/-- Outcome of the upload `try` block of `_execute_f4pga` /
`_execute_openlane`: `requests.post` may raise `FileNotFoundError` or some
other exception (connection failure, timeout), or return a response with a
status code, a possibly blank body, and a body that `.json()` either decodes
(`some payload`) or raises on (`none`). -/
inductive UploadOutcome (π : Type) where
  | postRaisesFNF (msg : String)
  | postRaisesOther (msg : String)
  | resp (status : Nat) (blank : Bool) (payload : Option π)
deriving DecidableEq

/-- Environment of one `_execute_f4pga` run: whether the working directory
holds any `.v` file, whether the conventional XDC constraint file exists, and
the HTTP outcome. -/
structure F4Env where
  hasVerilog : Bool
  xdcExists : Bool
  outcome : UploadOutcome F4Payload
deriving DecidableEq

/-- Environment of one `_execute_openlane` run. -/
structure OLEnv where
  hasVerilog : Bool
  configExists : Bool
  outcome : UploadOutcome OLPayload
deriving DecidableEq

/-- Environments of both providers for one `_process_ppa` run. -/
structure PpaEnv where
  f4 : F4Env
  ol : OLEnv
deriving DecidableEq

/-- The per-submission metadata keys the Verilog executor reads
(`self.meta.get(...)`).  Thresholds are numeric when configured. -/
structure Meta where
  enable_waveform : Bool := false
  enable_ppa : Bool := false
  f4pga_board : Option String := none
  f4pga_target_fmax : Option ℚ := none
  openlane_pdk : Option String := none
  openlane_ppa_score : Option ℚ := none
  openlane_critical_path_ns : Option ℚ := none
  openlane_core_area_um2 : Option ℚ := none
  openlane_power_total : Option ℚ := none
deriving DecidableEq

/-- Bookkeeping of the file objects opened for upload and those explicitly
closed before the function returns, along each path. -/
structure Ledger where
  opened : List String
  closed : List String
deriving DecidableEq

/-- `_execute_f4pga(board, result)`: returns the decoded response (or `none`)
and the possibly mutated result, plus the upload-handle ledger.  The source
opens both files, posts, closes both files, and only then checks the status
code, the blank body, and decodes JSON; `FileNotFoundError` sets an `IE`
verdict while any other exception is swallowed — in both raise paths no close
is executed. -/
def execute_f4pga (problem board : String) (env : F4Env) (r : JudgeResult) :
    Option F4Payload × JudgeResult × Ledger :=
  if ¬ env.hasVerilog then (none, r, ⟨[], []⟩)
  else if ¬ env.xdcExists then
    (none,
     { r with result_flag := IE
              feedback := some ("F4PGA XDC file not found: " ++ problem ++ "_" ++ board ++ ".xdc") },
     ⟨[], []⟩)
  else
    let op := ["verilog_file", "xdc_file"]
    match env.outcome with
    | .postRaisesFNF msg =>
        (none,
         { r with result_flag := IE, feedback := some ("F4PGA file not found: " ++ msg) },
         ⟨op, []⟩)
    | .postRaisesOther _ => (none, r, ⟨op, []⟩)
    | .resp status blank payload =>
        if status ≠ 200 then (none, r, ⟨op, op⟩)
        else if blank then (none, r, ⟨op, op⟩)
        else
          match payload with
          | none => (none, r, ⟨op, op⟩)
          | some p => (some p, r, ⟨op, op⟩)

/-- `_execute_openlane(pdk, result)`: like the F4PGA upload but with the
OpenLane config file, no `FileNotFoundError` clause (every exception is
swallowed by the single generic handler), and an extra `success` check on the
decoded payload. -/
def execute_openlane (problem pdk : String) (env : OLEnv) (r : JudgeResult) :
    Option OLPayload × JudgeResult × Ledger :=
  if ¬ env.hasVerilog then (none, r, ⟨[], []⟩)
  else if ¬ env.configExists then
    (none,
     { r with result_flag := IE
              feedback := some ("OpenLane config file not found: " ++ problem ++ "_" ++ pdk ++ "_config.json") },
     ⟨[], []⟩)
  else
    let op := ["verilog_file", "config_file"]
    match env.outcome with
    | .postRaisesFNF _ => (none, r, ⟨op, []⟩)
    | .postRaisesOther _ => (none, r, ⟨op, []⟩)
    | .resp status blank payload =>
        if status ≠ 200 then (none, r, ⟨op, op⟩)
        else if blank then (none, r, ⟨op, op⟩)
        else
          match payload with
          | none => (none, r, ⟨op, op⟩)
          | some p => if p.success then (some p, r, ⟨op, op⟩) else (none, r, ⟨op, op⟩)

/-- `_check_f4pga_targets`: returns (feedback lines, failed-target lines).
The Fmax line is always reported; a failure is recorded only when a target is
configured, the measured value is not `None`, and the comparison succeeds and
is `<`. -/
def check_f4pga_targets (data : F4Payload) (f4pga_target_fmax : Option ℚ) :
    List String × List String :=
  match data.ppaFmax with
  | none => (["[F4PGA] Error processing results"], [])
  | some v =>
    let fb :=
      match f4pga_target_fmax with
      | some t => ["[F4PGA] Fmax: " ++ jstr v ++ " (Target: " ++ toString t ++ " MHz)"]
      | none => ["[F4PGA] Fmax: " ++ jstr v]
    let fl :=
      match f4pga_target_fmax with
      | none => []
      | some t =>
        if v = .null then []
        else
          match cmpLt v t with
          | some true => ["F4PGA Fmax " ++ jstr v ++ " MHz < " ++ toString t ++ " MHz"]
          | _ => []
    (fb, fl)

/-- `_check_openlane_targets`: one detail line per metric (with or without a
target), then one failure entry per configured target whose measured value is
not the `"N/A"` sentinel and compares on the failing side (`<` for the score,
`>` for delay, area and power). -/
def check_openlane_targets (m : Option OLMetrics)
    (tScore tPath tArea tPower : Option ℚ) : List String × List String :=
  match m with
  | none => (["[OpenLane] Error processing results"], [])
  | some mm =>
    let d1 :=
      match tScore with
      | some t => "PPA Score: " ++ jstr mm.ppa_score ++ " (Target: ≥" ++ toString t ++ ")"
      | none => "PPA Score: " ++ jstr mm.ppa_score
    let d2 :=
      match tPath with
      | some t => "Critical Path: " ++ jstr mm.critical_path_ns ++ "ns (Max: " ++ toString t ++ "ns)"
      | none => "Critical Path: " ++ jstr mm.critical_path_ns ++ "ns"
    let d3 :=
      match tArea with
      | some t => "Core Area: " ++ jstr mm.coreArea_um2 ++ "μm² (Max: " ++ toString t ++ "μm²)"
      | none => "Core Area: " ++ jstr mm.coreArea_um2 ++ "μm²"
    let d4 :=
      match tPower with
      | some t => "Power: " ++ jstr mm.power_total ++ "mW (Max: " ++ toString t ++ "mW)"
      | none => "Power: " ++ jstr mm.power_total ++ "mW"
    let fb := ["[OpenLane] " ++ String.intercalate ", " [d1, d2, d3, d4]]
    let f1 :=
      match tScore with
      | none => []
      | some t =>
        if mm.ppa_score = .str "N/A" then []
        else
          match cmpLt mm.ppa_score t with
          | some true => ["OpenLane PPA score " ++ jstr mm.ppa_score ++ " < " ++ toString t]
          | _ => []
    let f2 :=
      match tPath with
      | none => []
      | some t =>
        if mm.critical_path_ns = .str "N/A" then []
        else
          match cmpGt mm.critical_path_ns t with
          | some true => ["OpenLane critical path " ++ jstr mm.critical_path_ns ++ "ns > " ++ toString t ++ "ns"]
          | _ => []
    let f3 :=
      match tArea with
      | none => []
      | some t =>
        if mm.coreArea_um2 = .str "N/A" then []
        else
          match cmpGt mm.coreArea_um2 t with
          | some true => ["OpenLane core area " ++ jstr mm.coreArea_um2 ++ "μm² > " ++ toString t ++ "μm²"]
          | _ => []
    let f4 :=
      match tPower with
      | none => []
      | some t =>
        if mm.power_total = .str "N/A" then []
        else
          match cmpGt mm.power_total t with
          | some true => ["OpenLane power " ++ jstr mm.power_total ++ "mW > " ++ toString t ++ "mW"]
          | _ => []
    (fb, f1 ++ f2 ++ f3 ++ f4)

/-- The F4PGA leg of `_process_ppa` (lines 147-154): execute, then either
check targets or report `[F4PGA] Execution failed`. -/
def f4_step (problem board : String) (target : Option ℚ) (env : F4Env)
    (r : JudgeResult) : List String × List String × JudgeResult :=
  let e := execute_f4pga problem board env r
  match e.1 with
  | some d =>
    let c := check_f4pga_targets d target
    (c.1, c.2, e.2.1)
  | none => (["[F4PGA] Execution failed"], [], e.2.1)

/-- The OpenLane leg of `_process_ppa` (lines 157-166). -/
def ol_step (problem pdk : String) (tScore tPath tArea tPower : Option ℚ)
    (env : OLEnv) (r : JudgeResult) : List String × List String × JudgeResult :=
  let e := execute_openlane problem pdk env r
  match e.1 with
  | some d =>
    let c := check_openlane_targets d.metrics tScore tPath tArea tPower
    (c.1, c.2, e.2.1)
  | none => (["[OpenLane] Execution failed"], [], e.2.1)

/-- Lines 143-171 of `_process_ppa`: run both enabled providers in order,
collecting `feedback_parts`, `failed_targets`, and the (possibly IE-mutated)
result.  The `[PPA] No board/PDK selected` line is appended when neither
provider is configured. -/
def ppa_collect (problem : String) (meta : Meta) (env : PpaEnv)
    (r : JudgeResult) : List String × List String × JudgeResult :=
  let s1 :=
    match meta.f4pga_board with
    | none => (([] : List String), ([] : List String), r)
    | some board => f4_step problem board meta.f4pga_target_fmax env.f4 r
  let s2 :=
    match meta.openlane_pdk with
    | none => (([] : List String), ([] : List String), s1.2.2)
    | some pdk =>
      ol_step problem pdk meta.openlane_ppa_score meta.openlane_critical_path_ns
        meta.openlane_core_area_um2 meta.openlane_power_total env.ol s1.2.2
  let fb3 :=
    if meta.f4pga_board = none ∧ meta.openlane_pdk = none then
      ["[PPA] No board/PDK selected"]
    else []
  (s1.1 ++ s2.1 ++ fb3, s1.2.1 ++ s2.2.1, s2.2.2)

/-- `result.extended_feedback = (result.extended_feedback or '') + '\n' +
'\n'.join(feedback_parts)`, guarded by `if feedback_parts:`. -/
def appendExt (r : JudgeResult) (parts : List String) : JudgeResult :=
  if parts = [] then r
  else
    { r with extended_feedback := some ((r.extended_feedback.getD "") ++
        "\n" ++ String.intercalate "\n" parts) }

/-- `_process_ppa(result)` from VLOG.py.  If any failed target was collected,
the verdict is overwritten: `result_flag = PLE`, `points = 0`, a short
feedback with the failure count, and an itemized `[PPA] FAILED:` line; with no
failures and at least one provider configured, `[PPA] All targets passed` is
appended instead.  All collected lines are appended to extended feedback. -/
def process_ppa (problem : String) (meta : Meta) (env : PpaEnv)
    (r : JudgeResult) : JudgeResult :=
  if meta.enable_ppa then
    let c := ppa_collect problem meta env r
    let parts := c.1
    let failed := c.2.1
    let r2 := c.2.2
    if failed = [] then
      let fbEnd :=
        if meta.f4pga_board ≠ none ∨ meta.openlane_pdk ≠ none then
          ["[PPA] All targets passed"]
        else []
      appendExt r2 (parts ++ fbEnd)
    else
      appendExt
        { r2 with result_flag := PLE, points := 0
                  feedback := some ("PPA targets not met (" ++ toString failed.length ++ " items)") }
        (parts ++ ["[PPA] FAILED: " ++ String.intercalate "; " failed])
  else r

/-- Environment of one `_process_waveform` run: whether `wave.vcd` exists in
the working directory, its size, and whether the copy to durable storage
succeeds (a failing copy is caught and logged). -/
structure WaveEnv where
  vcdExists : Bool
  vcdSize : Nat
  copySucceeds : Bool
deriving DecidableEq

/-- `self.submission_id or 'unknown'` (Python truthiness: `None` and the
empty string both fall back). -/
def sidOr (submission_id : Option String) : String :=
  match submission_id with
  | none => "unknown"
  | some s => if s = "" then "unknown" else s

/-- `_process_waveform(result)` from VLOG.py: enabled by metadata, no-op when
the trace is absent or under 100 bytes, best-effort copy, and on success an
appended `[WAVEFORM]` reference; the verdict flag and points are never
touched. -/
def process_waveform (meta : Meta) (submission_id : Option String)
    (env : WaveEnv) (r : JudgeResult) : JudgeResult :=
  if ¬ meta.enable_waveform then r
  else if ¬ env.vcdExists then r
  else if env.vcdSize < 100 then r
  else
    let dest := "/waves/" ++ sidOr submission_id ++ ".vcd"
    if env.copySucceeds then
      { r with extended_feedback := some ((r.extended_feedback.getD "") ++
          "\n[WAVEFORM]VCD:" ++ dest) }
    else r

/-- The `Executor.syscalls` class attribute from VLOG.py: the network
syscalls the sandbox additionally allows. -/
def syscalls : List String :=
  ["socket", "connect", "sendto", "recvfrom", "send", "recv",
   "setsockopt", "getsockopt", "shutdown"]

/-- The network-syscall grant for one submission.  In the source the
allowlist is the class attribute `Executor.syscalls`, fixed at class level:
it is granted for every submission of this executor and does not consult the
submission's metadata (in particular not `enable_ppa`). -/
def granted_syscalls (_meta : Meta) : List String := syscalls

/-- Python `f.endswith(sfx)`, expressed on the character lists. -/
def pyEndsWith (f sfx : String) : Bool := sfx.data.isSuffixOf f.data

/-- The `.sv` widening pass at the top of `Executor.get_compile_args`: unless
`self_test.v` is among the inputs, every `.sv` file of the working directory
is appended to `source_paths` (`extend`, with no duplicate check). -/
def widen_sources (source_paths : List String) (dirFiles : List String) :
    List String :=
  if "self_test.v" ∈ source_paths then source_paths
  else source_paths ++ dirFiles.filter (fun f => pyEndsWith f ".sv")

/-- The `flags` class attribute of the Verilog executor. -/
def flags : List String := ["-g2012"]

/-- `Executor.get_compile_args` from VLOG.py: after the widening pass, the
command line is `[runtime_dict[command], *flags, '-o', compiled_file,
*source_paths]`.  `runtime_dict[self.command]` (the resolved iverilog binary)
and `get_compiled_file()` are functions of external configuration and are
taken as inputs. -/
def get_compile_args (runtimeCommand : String) (compiledFile : String)
    (source_paths dirFiles : List String) : List String :=
  let sp := widen_sources source_paths dirFiles
  [runtimeCommand] ++ flags ++ ["-o", compiledFile] ++ sp

end VLOG

/-- C3 (counterexample): the claim says a submission with PPA disabled is
never granted the network syscalls; but the allowlist is the class attribute
`Executor.syscalls`, so a submission whose metadata has `enable_ppa = False`
is still granted `socket`. -/
theorem C3_network_always_granted_counterexample :
    ({ enable_ppa := false } : VLOG.Meta).enable_ppa = false ∧
    "socket" ∈ VLOG.granted_syscalls { enable_ppa := false } :=
  ⟨rfl, by decide⟩

/-- C3 (amended): the sandbox policy grants the network syscalls
unconditionally for every submission of this executor — the granted set is
independent of the submission's metadata (in particular of `enable_ppa`) and
always contains the socket syscalls. -/
theorem C3_network_syscalls_amended :
    ∀ m₁ m₂ : VLOG.Meta, VLOG.granted_syscalls m₁ = VLOG.granted_syscalls m₂ ∧
      "socket" ∈ VLOG.granted_syscalls m₁ ∧ "connect" ∈ VLOG.granted_syscalls m₁ := by
  intro m₁ m₂
  refine ⟨rfl, ?_, ?_⟩
  · show "socket" ∈ VLOG.syscalls
    decide
  · show "connect" ∈ VLOG.syscalls
    decide

/-- C4 (counterexample): the cache key joins its components with no
separator, so two inputs that differ in the flag list (`['-a', '-b']` versus
`['-a-b']`) produce the same key, contradicting "any difference in any flag …
produces different cache keys". -/
theorem C4_cache_key_collision_counterexample :
    CLike.get_binary_cache_key
        ⟨"p", "iverilog", "", [], ["-a", "-b"], none, ["module m; endmodule"]⟩ =
      CLike.get_binary_cache_key
        ⟨"p", "iverilog", "", [], ["-a-b"], none, ["module m; endmodule"]⟩ ∧
    (["-a", "-b"] : List String) ≠ ["-a-b"] :=
  ⟨by decide, by decide⟩

/-- C4 (amended): byte-identical problem id, command, march flag, defines,
flags, std setting and source bytes produce identical cache keys
(`get_binary_cache_key` is a function of exactly these components); but
because the components are concatenated without separators the converse
direction of the claim fails (see the counterexample). -/
theorem C4_cache_key_deterministic_amended (i j : CLike.CacheInputs)
    (h1 : i.problem = j.problem) (h2 : i.command = j.command)
    (h3 : i.march = j.march) (h4 : i.defines = j.defines)
    (h5 : i.flags = j.flags) (h6 : i.std = j.std) (h7 : i.sources = j.sources) :
    CLike.get_binary_cache_key i = CLike.get_binary_cache_key j := by
  unfold CLike.get_binary_cache_key
  rw [h1, h2, h3, h4, h5, h6, h7]

/-- C4 witness: the determinism theorem applied at a concrete input. -/
theorem C4_cache_key_deterministic_amended_witness :
    CLike.get_binary_cache_key ⟨"p", "iverilog", "-march=native", [], ["-g2012"], none, ["module m; endmodule"]⟩ =
      CLike.get_binary_cache_key ⟨"p", "iverilog", "-march=native", [], ["-g2012"], none, ["module m; endmodule"]⟩ :=
  C4_cache_key_deterministic_amended _ _ rfl rfl rfl rfl rfl rfl rfl

/-- C5: when `requests.post` raises (connection failure or timeout), both
upload file handles opened by `_execute_f4pga` / `_execute_openlane` are left
open on the exception path — the explicit `close()` calls sit after the post
and are skipped — contradicting the requirement that every handle is closed
on every exit path. -/
theorem C5_upload_handle_leak_eval :
    (VLOG.execute_f4pga "p" "basys3"
        ⟨true, true, .postRaisesOther "connection refused"⟩
        ⟨VLOG.AC, 1, none, none⟩).2.2 = ⟨["verilog_file", "xdc_file"], []⟩ ∧
    (VLOG.execute_openlane "p" "sky130"
        ⟨true, true, .postRaisesOther "timeout"⟩
        ⟨VLOG.AC, 1, none, none⟩).2.2 = ⟨["verilog_file", "config_file"], []⟩ :=
  ⟨rfl, rfl⟩

/-- C7 (counterexample): the compile command line built by
`Executor.get_compile_args` uses the raw class attribute `flags`
(`['-g2012']`) and never includes the GCC mixin's `-fmax-errors=5` flag —
that flag exists only in `get_flags`, which only the cache key consults. -/
theorem C7_compile_args_no_fmax_counterexample :
    "-fmax-errors=5" ∉
      VLOG.get_compile_args "/usr/bin/iverilog" "/tmp/subm/p" ["p.v"] ["p.v"] ∧
    "-fmax-errors=5" ∈ CLike.gcc_get_flags VLOG.flags none :=
  ⟨by decide, by decide⟩

/-- C7 (amended): the command line has the shape `<compiler> <flags> -o
<output path> <all source paths>` where the flags are exactly the fixed
baseline `['-g2012']`; the mixin's max-error-count flag is contributed to
`get_flags` (used by the binary cache key) but not to the compile command. -/
theorem C7_compile_args_shape_amended (cmd out : String) (sp df : List String) :
    VLOG.get_compile_args cmd out sp df =
      cmd :: "-g2012" :: "-o" :: out :: VLOG.widen_sources sp df ∧
    "-fmax-errors=5" ∈ CLike.gcc_get_flags VLOG.flags none ∧
    "-fmax-errors=5" ∉ VLOG.flags :=
  ⟨rfl, by decide, by decide⟩

/-- C8 (counterexample): the widening pass appends every `.sv` file of the
working directory with no duplicate check, so a `.sv` file that is already an
explicit input appears twice in the source list — contradicting "not already
explicitly listed as inputs (no source path appears twice)". -/
theorem C8_widen_duplicates_counterexample :
    (VLOG.widen_sources ["p.v", "helper.sv"] ["helper.sv"]).count "helper.sv" = 2 ∧
    "helper.sv" ∈ (["p.v", "helper.sv"] : List String) :=
  ⟨by decide, by decide⟩

/-- C8 (amended): unless the designated self-test source `self_test.v` is
among the inputs (in which case the source list is unchanged), the widening
pass appends to the compile unit's source list exactly the working-directory
files with the `.sv` extension — including ones already listed, so a path can
appear twice; every appended element comes from the directory listing and
ends in `.sv`. -/
theorem C8_widen_amended (sp df : List String) :
    ("self_test.v" ∈ sp → VLOG.widen_sources sp df = sp) ∧
    ("self_test.v" ∉ sp →
      VLOG.widen_sources sp df = sp ++ df.filter (fun f => VLOG.pyEndsWith f ".sv")) ∧
    ("self_test.v" ∉ sp → ∀ x ∈ VLOG.widen_sources sp df,
      x ∈ sp ∨ (x ∈ df ∧ VLOG.pyEndsWith x ".sv" = true)) := by
  unfold VLOG.widen_sources
  by_cases h : "self_test.v" ∈ sp
  · rw [if_pos h]
    exact ⟨fun _ => rfl, fun hn => absurd h hn, fun hn => absurd h hn⟩
  · rw [if_neg h]
    refine ⟨fun hc => absurd hc h, fun _ => rfl, fun _ x hx => ?_⟩
    rcases List.mem_append.1 hx with h1 | h2
    · exact Or.inl h1
    · exact Or.inr ⟨(List.mem_filter.1 h2).1, (List.mem_filter.1 h2).2⟩

/-- C8 witness: the amended theorem applied at concrete inputs, covering both
the self-test exemption and the widening branch. -/
theorem C8_widen_amended_witness :
    VLOG.widen_sources ["self_test.v"] ["a.sv"] = ["self_test.v"] ∧
    VLOG.widen_sources ["p.v"] ["a.sv", "b.txt"] = ["p.v", "a.sv"] :=
  ⟨(C8_widen_amended ["self_test.v"] ["a.sv"]).1 (by decide),
   ((C8_widen_amended ["p.v"] ["a.sv", "b.txt"]).2.1 (by decide)).trans (by decide)⟩

namespace VerilogChecker

lemma eq_space_of_upc (c : Char) (h : upc c = ' ') : c = ' ' := by
  unfold upc at h
  split at h
  all_goals first | exact h | exact absurd h (by decide)

lemma upc_of_ws (c : Char) (h : isWS c = true) : upc c = c := by
  simp only [isWS, Bool.or_eq_true, decide_eq_true_eq] at h
  rcases h with ((((h | h) | h) | h) | h) | h <;> subst h <;> decide

lemma isWS_false_of_upc (c d : Char) (h : upc c = d) (hd : isWS d = false) :
    isWS c = false := by
  cases hB : isWS c with
  | false => rfl
  | true =>
    rw [upc_of_ws c hB] at h
    subst h
    simp [hB] at hd

lemma pyStrip_nil_of_all (s : Str) (h : ∀ c ∈ s, isWS c = true) : pyStrip s = [] := by
  unfold pyStrip
  rw [List.dropWhile_eq_nil_iff.2 h]
  rfl

lemma all_of_pyStrip_nil (s : Str) (h : pyStrip s = []) : ∀ c ∈ s, isWS c = true := by
  unfold pyStrip at h
  rw [List.reverse_eq_nil_iff] at h
  have hrev := List.dropWhile_eq_nil_iff.1 h
  intro c hc
  have hsplit : s.takeWhile isWS ++ s.dropWhile isWS = s :=
    List.takeWhile_append_dropWhile isWS s
  rw [← hsplit] at hc
  rcases List.mem_append.1 hc with h1 | h2
  · exact List.mem_takeWhile_imp h1
  · exact hrev c (List.mem_reverse.2 h2)

lemma splitLB_ne_nil (t : Str) : splitLB t ≠ [] := by
  cases t with
  | nil => simp [splitLB]
  | cons c cs =>
    simp only [splitLB]
    split
    · simp
    · split <;> simp

lemma mem_of_mem_splitLB :
    ∀ (t : Str), ∀ l ∈ splitLB t, ∀ c ∈ l, c ∈ t := by
  intro t
  induction t with
  | nil =>
    intro l hl c hc
    simp [splitLB] at hl
    subst hl
    exact absurd hc (by simp)
  | cons a cs ih =>
    intro l hl c hc
    by_cases hLB : isLB a = true
    · simp only [splitLB, hLB, if_true] at hl
      rcases List.mem_cons.1 hl with rfl | hl2
      · exact absurd hc (by simp)
      · exact List.mem_cons_of_mem a (ih l hl2 c hc)
    · obtain ⟨l', ls', hsplit⟩ := List.exists_cons_of_ne_nil (splitLB_ne_nil cs)
      simp only [splitLB, hLB, if_false, hsplit] at hl
      rcases List.mem_cons.1 hl with rfl | hl2
      · rcases List.mem_cons.1 hc with rfl | hc2
        · exact List.mem_cons_self c cs
        · exact List.mem_cons_of_mem a
            (ih l' (by rw [hsplit]; exact List.mem_cons_self l' ls') c hc2)
      · exact List.mem_cons_of_mem a
          (ih l (by rw [hsplit]; exact List.mem_cons_of_mem l' hl2) c hc)

lemma nonBlankLines_nil_of_all (t : Str) (h : ∀ c ∈ t, isWS c = true) :
    nonBlankLines t = [] := by
  unfold nonBlankLines
  rw [List.filter_eq_nil_iff]
  intro x hx
  rcases List.mem_map.1 hx with ⟨l0, hl0, rfl⟩
  have : pyStrip l0 = [] :=
    pyStrip_nil_of_all l0 (fun c hc => h c (mem_of_mem_splitLB t l0 hl0 c hc))
  simp [this]

lemma pyStrip_ne_nil_of_last (t l : Str)
    (h : (nonBlankLines t).getLast? = some l) : pyStrip t ≠ [] := by
  intro hnil
  rw [nonBlankLines_nil_of_all t (all_of_pyStrip_nil t hnil)] at h
  simp at h

lemma ciPrefix_append :
    ∀ (p s t : Str), s.map upc = p.map upc → ciPrefix p (s ++ t) = some t := by
  intro p
  induction p with
  | nil =>
    intro s t h
    have : s = [] := by simpa using h
    subst this
    rfl
  | cons q qs ih =>
    intro s t h
    cases s with
    | nil => simp at h
    | cons c cs =>
      simp only [List.map_cons, List.cons.injEq] at h
      simp only [List.cons_append, ciPrefix, h.1, if_true]
      exact ih cs t h.2

lemma matchOK_of_upc (l : Str) (h : l.map upc = "RESULT: OK".data) :
    matchOK l = true := by
  have hsplit : "RESULT: OK".data = "RESULT:".data ++ (' ' :: "OK".data) := by decide
  rw [hsplit] at h
  obtain ⟨s1, t1, rfl, hs1, ht1⟩ := List.append_eq_map_iff.mp h.symm
  cases t1 with
  | nil => simp at ht1
  | cons h1 t2 =>
    simp only [List.map_cons, List.cons.injEq] at ht1
    obtain ⟨hh1, ht2⟩ := ht1
    have hh1' : h1 = ' ' := eq_space_of_upc h1 hh1
    subst hh1'
    cases t2 with
    | nil => simp at ht2
    | cons i t3 =>
      simp only [List.map_cons, List.cons.injEq] at ht2
      obtain ⟨hi, ht3⟩ := ht2
      cases t3 with
      | nil => simp at ht3
      | cons j t4 =>
        simp only [List.map_cons, List.cons.injEq] at ht3
        obtain ⟨hj, ht4⟩ := ht3
        have ht4' : t4 = [] := by simpa using ht4
        subst ht4'
        have e1 : ciPrefix "RESULT:".data (s1 ++ (' ' :: i :: [j])) =
            some (' ' :: i :: [j]) := by
          apply ciPrefix_append
          rw [hs1]
          decide
        have hiws : isWS i = false := isWS_false_of_upc i 'O' hi (by decide)
        have e2 : (' ' :: i :: [j]).dropWhile isWS = i :: [j] := by
          simp only [List.dropWhile]
          rw [show isWS ' ' = true by decide, hiws]
        have e3 : ciPrefix "OK".data (i :: [j]) = some [] := by
          have := ciPrefix_append "OK".data (i :: [j]) []
            (by simp only [List.map_cons, List.map_nil, hi, hj]; decide)
          simpa using this
        unfold matchOK
        rw [e1]
        show (match ciPrefix "OK".data (List.dropWhile isWS [' ', i, j]) with
              | some [] => true
              | _ => false) = true
        rw [e2, e3]

end VerilogChecker

/-- C6: for every stdout whose last non-blank line equals `RESULT: OK` up to
ASCII case (no trailing tokens), the checker returns a passing verdict with
the full point value, independent of preceding lines, trailing whitespace and
all other inputs. -/
theorem C6_result_ok_passes (proc_out judge_out res_feedback : VerilogChecker.Str)
    (limit : Option Nat) (result_flag : Option Int) (point_value : ℚ)
    (l : VerilogChecker.Str)
    (hlast : (VerilogChecker.nonBlankLines proc_out).getLast? = some l)
    (hl : l.map VerilogChecker.upc = "RESULT: OK".data) :
    VerilogChecker.check proc_out judge_out res_feedback limit result_flag point_value =
      ⟨true, point_value, none, none⟩ := by
  have hne : VerilogChecker.pyStrip proc_out ≠ [] :=
    VerilogChecker.pyStrip_ne_nil_of_last _ _ hlast
  have hOK : VerilogChecker.matchOK l = true := VerilogChecker.matchOK_of_upc l hl
  have hlastD : (VerilogChecker.nonBlankLines proc_out).getLastD [] = l := by
    rw [List.getLastD_eq_getLast?, hlast]
    rfl
  unfold VerilogChecker.check
  rw [if_neg hne]
  simp only [hlastD, hOK, if_true]

/-- C6 witness: the theorem applied to a stdout with a noise line, mixed case
and trailing whitespace. -/
theorem C6_result_ok_passes_witness :
    VerilogChecker.check "hello\nResult: ok  \n".data [] [] none none 5 =
      ⟨true, 5, none, none⟩ :=
  C6_result_ok_passes _ _ _ _ _ _ "Result: ok".data (by decide) (by decide)

set_option maxRecDepth 4000 in
/-- C1: at the failing input (empty stdout; 250 bytes of stderr containing no
C++ terminate message), the checker does fail with score 0, but its extended
feedback is the repr of the result's feedback field — which
`parse_feedback_from_stderr` computes as the empty string here, giving
`stderr_first200=b''` — and does *not* contain the first 200 bytes of the
captured stderr, contradicting the claim. -/
theorem C1_no_output_ext_is_result_feedback :
    (VerilogChecker.check [] []
        (VerilogChecker.parse_feedback_from_stderr (List.replicate 250 'x'))
        none none 1).passed = false ∧
    (VerilogChecker.check [] []
        (VerilogChecker.parse_feedback_from_stderr (List.replicate 250 'x'))
        none none 1).points = 0 ∧
    (VerilogChecker.check [] []
        (VerilogChecker.parse_feedback_from_stderr (List.replicate 250 'x'))
        none none 1).extended_feedback =
      some ("stderr_first200=b".data ++ [VerilogChecker.quoteCh, VerilogChecker.quoteCh]) ∧
    VerilogChecker.isSubseg
      ((VerilogChecker.check [] []
          (VerilogChecker.parse_feedback_from_stderr (List.replicate 250 'x'))
          none none 1).extended_feedback.getD [])
      ((List.replicate 250 'x').take 200) = false := by
  decide

namespace VLOG

lemma appendExt_fields (r : JudgeResult) (parts : List String) :
    (appendExt r parts).result_flag = r.result_flag ∧
    (appendExt r parts).points = r.points ∧
    (appendExt r parts).feedback = r.feedback := by
  unfold appendExt
  split <;> exact ⟨rfl, rfl, rfl⟩

lemma appendExt_ext_of (r' r : JudgeResult) (parts : List String)
    (h : r'.extended_feedback = r.extended_feedback) :
    ∃ s, ((appendExt r' parts).extended_feedback.getD "").data =
      (r.extended_feedback.getD "").data ++ s := by
  unfold appendExt
  split
  · exact ⟨[], by rw [h, List.append_nil]⟩
  · exact ⟨("\n" ++ String.intercalate "\n" parts).data, by rw [h]; simp [List.append_assoc]⟩

lemma execute_f4pga_result (problem board : String) (env : F4Env) (r : JudgeResult) :
    (execute_f4pga problem board env r).2.1.points = r.points ∧
    (execute_f4pga problem board env r).2.1.extended_feedback = r.extended_feedback ∧
    ((execute_f4pga problem board env r).2.1.result_flag = r.result_flag ∨
     (execute_f4pga problem board env r).2.1.result_flag = IE) := by
  refine ⟨?_, ?_, ?_⟩
  · unfold execute_f4pga
    repeat' split
    all_goals rfl
  · unfold execute_f4pga
    repeat' split
    all_goals rfl
  · unfold execute_f4pga
    repeat' split
    all_goals first | exact Or.inl rfl | exact Or.inr rfl

lemma execute_openlane_result (problem pdk : String) (env : OLEnv) (r : JudgeResult) :
    (execute_openlane problem pdk env r).2.1.points = r.points ∧
    (execute_openlane problem pdk env r).2.1.extended_feedback = r.extended_feedback ∧
    ((execute_openlane problem pdk env r).2.1.result_flag = r.result_flag ∨
     (execute_openlane problem pdk env r).2.1.result_flag = IE) := by
  refine ⟨?_, ?_, ?_⟩
  · unfold execute_openlane
    repeat' split
    all_goals rfl
  · unfold execute_openlane
    repeat' split
    all_goals rfl
  · unfold execute_openlane
    repeat' split
    all_goals first | exact Or.inl rfl | exact Or.inr rfl

lemma f4_step_result (problem board : String) (target : Option ℚ) (env : F4Env)
    (r : JudgeResult) :
    (f4_step problem board target env r).2.2 = (execute_f4pga problem board env r).2.1 := by
  simp only [f4_step]
  split <;> rfl

lemma ol_step_result (problem pdk : String) (tScore tPath tArea tPower : Option ℚ)
    (env : OLEnv) (r : JudgeResult) :
    (ol_step problem pdk tScore tPath tArea tPower env r).2.2 =
      (execute_openlane problem pdk env r).2.1 := by
  simp only [ol_step]
  split <;> rfl

lemma ppa_collect_result (problem : String) (meta : Meta) (env : PpaEnv)
    (r : JudgeResult) :
    (ppa_collect problem meta env r).2.2.points = r.points ∧
    (ppa_collect problem meta env r).2.2.extended_feedback = r.extended_feedback ∧
    ((ppa_collect problem meta env r).2.2.result_flag = r.result_flag ∨
     (ppa_collect problem meta env r).2.2.result_flag = IE) := by
  rcases hb : meta.f4pga_board with _ | board <;>
    rcases hp : meta.openlane_pdk with _ | pdk <;>
      simp only [ppa_collect, hb, hp]
  · simp
  · rw [ol_step_result]
    exact execute_openlane_result problem pdk env.ol r
  · rw [f4_step_result]
    exact execute_f4pga_result problem board env.f4 r
  · rw [ol_step_result, f4_step_result]
    obtain ⟨p1, e1, f1⟩ := execute_f4pga_result problem board env.f4 r
    obtain ⟨p2, e2, f2⟩ :=
      execute_openlane_result problem pdk env.ol (execute_f4pga problem board env.f4 r).2.1
    refine ⟨p2.trans p1, e2.trans e1, ?_⟩
    rcases f2 with f2 | f2
    · rcases f1 with f1 | f1
      · exact Or.inl (f2.trans f1)
      · exact Or.inr (f2.trans f1)
    · exact Or.inr f2

lemma process_ppa_failed (problem : String) (meta : Meta) (env : PpaEnv)
    (r : JudgeResult) (hen : meta.enable_ppa = true)
    (hf : (ppa_collect problem meta env r).2.1 ≠ []) :
    (process_ppa problem meta env r).result_flag = PLE ∧
    (process_ppa problem meta env r).points = 0 ∧
    (process_ppa problem meta env r).feedback =
      some ("PPA targets not met (" ++
        toString (ppa_collect problem meta env r).2.1.length ++ " items)") := by
  unfold process_ppa
  rw [if_pos hen, if_neg hf]
  exact ⟨(appendExt_fields _ _).1, (appendExt_fields _ _).2.1, (appendExt_fields _ _).2.2⟩

lemma process_ppa_flag (problem : String) (meta : Meta) (env : PpaEnv)
    (r : JudgeResult) (h : r.result_flag ≠ AC) :
    (process_ppa problem meta env r).result_flag ≠ AC := by
  unfold process_ppa
  by_cases hen : meta.enable_ppa = true
  · rw [if_pos hen]
    by_cases hf : (ppa_collect problem meta env r).2.1 = []
    · rw [if_pos hf, (appendExt_fields _ _).1]
      rcases (ppa_collect_result problem meta env r).2.2 with hfl | hfl
      · rw [hfl]; exact h
      · rw [hfl]; decide
    · rw [if_neg hf, (appendExt_fields _ _).1]
      show PLE ≠ AC
      decide
  · rw [if_neg hen]
    exact h

lemma process_ppa_ext (problem : String) (meta : Meta) (env : PpaEnv)
    (r : JudgeResult) :
    ∃ s, ((process_ppa problem meta env r).extended_feedback.getD "").data =
      (r.extended_feedback.getD "").data ++ s := by
  unfold process_ppa
  by_cases hen : meta.enable_ppa = true
  · rw [if_pos hen]
    by_cases hf : (ppa_collect problem meta env r).2.1 = []
    · rw [if_pos hf]
      exact appendExt_ext_of _ _ _ (ppa_collect_result problem meta env r).2.1
    · rw [if_neg hf]
      exact appendExt_ext_of _ _ _ (ppa_collect_result problem meta env r).2.1
  · rw [if_neg hen]
    exact ⟨[], (List.append_nil _).symm⟩

lemma process_waveform_fields (meta : Meta) (submission_id : Option String)
    (env : WaveEnv) (r : JudgeResult) :
    (process_waveform meta submission_id env r).result_flag = r.result_flag ∧
    (process_waveform meta submission_id env r).points = r.points ∧
    (process_waveform meta submission_id env r).feedback = r.feedback := by
  refine ⟨?_, ?_, ?_⟩
  all_goals
    unfold process_waveform
  all_goals
    repeat' split
  all_goals rfl

lemma process_waveform_ext (meta : Meta) (submission_id : Option String)
    (env : WaveEnv) (r : JudgeResult) :
    ∃ s, ((process_waveform meta submission_id env r).extended_feedback.getD "").data =
      (r.extended_feedback.getD "").data ++ s := by
  unfold process_waveform
  repeat' split
  all_goals first
    | exact ⟨[], (List.append_nil _).symm⟩
    | exact ⟨("\n[WAVEFORM]VCD:" ++ ("/waves/" ++ sidOr submission_id ++ ".vcd")).data,
        by simp [List.append_assoc]⟩

end VLOG

/-- C2: in every `_process_ppa` run in which at least one configured metric
threshold is violated by a provider's measured value (the collected
`failed_targets` list is non-empty), the verdict is overwritten to the
dedicated performance-limit-exceeded state `PLE` with points forced to 0 and
a short feedback reporting the count of failed items; and a run whose
incoming verdict already fails is never promoted to a pass by any synthesis
outcome. -/
theorem C2_ppa_override_monotonic (problem : String) (meta : VLOG.Meta)
    (env : VLOG.PpaEnv) (r : VLOG.JudgeResult) :
    (meta.enable_ppa = true → (VLOG.ppa_collect problem meta env r).2.1 ≠ [] →
      (VLOG.process_ppa problem meta env r).result_flag = VLOG.PLE ∧
      (VLOG.process_ppa problem meta env r).points = 0 ∧
      (VLOG.process_ppa problem meta env r).feedback =
        some ("PPA targets not met (" ++
          toString (VLOG.ppa_collect problem meta env r).2.1.length ++ " items)")) ∧
    (r.result_flag ≠ VLOG.AC →
      (VLOG.process_ppa problem meta env r).result_flag ≠ VLOG.AC) :=
  ⟨fun hen hf => VLOG.process_ppa_failed problem meta env r hen hf,
   fun h => VLOG.process_ppa_flag problem meta env r h⟩

/-- C2 witness: a run with a configured F4PGA Fmax target of 100 MHz, a
measured Fmax of 80 MHz and an incoming WA verdict: the final verdict is PLE
with 0 points and is not promoted to AC. -/
theorem C2_ppa_override_monotonic_witness :
    (VLOG.process_ppa "p"
      { enable_ppa := true, f4pga_board := some "basys3", f4pga_target_fmax := some 100 }
      ⟨⟨true, true, .resp 200 false (some ⟨some (.num 80)⟩)⟩,
       ⟨true, true, .resp 200 false none⟩⟩
      ⟨VLOG.WA, 0, none, none⟩).result_flag = VLOG.PLE ∧
    (VLOG.process_ppa "p"
      { enable_ppa := true, f4pga_board := some "basys3", f4pga_target_fmax := some 100 }
      ⟨⟨true, true, .resp 200 false (some ⟨some (.num 80)⟩)⟩,
       ⟨true, true, .resp 200 false none⟩⟩
      ⟨VLOG.WA, 0, none, none⟩).points = 0 ∧
    (VLOG.process_ppa "p"
      { enable_ppa := true, f4pga_board := some "basys3", f4pga_target_fmax := some 100 }
      ⟨⟨true, true, .resp 200 false (some ⟨some (.num 80)⟩)⟩,
       ⟨true, true, .resp 200 false none⟩⟩
      ⟨VLOG.WA, 0, none, none⟩).result_flag ≠ VLOG.AC := by
  have h := C2_ppa_override_monotonic "p"
    { enable_ppa := true, f4pga_board := some "basys3", f4pga_target_fmax := some 100 }
    ⟨⟨true, true, .resp 200 false (some ⟨some (.num 80)⟩)⟩,
     ⟨true, true, .resp 200 false none⟩⟩
    ⟨VLOG.WA, 0, none, none⟩
  exact ⟨(h.1 rfl (by decide)).1, (h.1 rfl (by decide)).2.1, h.2 (by decide)⟩

/-- C9: across every run of the waveform postprocessor and of the synthesis
verifier, the verdict is mutated only by demotion and appending: the extended
feedback present before the stage is a prefix of the one after it, the
waveform stage never changes flag or points, and neither stage turns a
non-passing result flag into the passing one. -/
theorem C9_demote_and_append_only (meta : VLOG.Meta) (submission_id : Option String)
    (wenv : VLOG.WaveEnv) (problem : String) (env : VLOG.PpaEnv)
    (r : VLOG.JudgeResult) :
    (∃ s, ((VLOG.process_waveform meta submission_id wenv r).extended_feedback.getD "").data =
        (r.extended_feedback.getD "").data ++ s) ∧
    (VLOG.process_waveform meta submission_id wenv r).result_flag = r.result_flag ∧
    (VLOG.process_waveform meta submission_id wenv r).points = r.points ∧
    (∃ s, ((VLOG.process_ppa problem meta env r).extended_feedback.getD "").data =
        (r.extended_feedback.getD "").data ++ s) ∧
    (r.result_flag ≠ VLOG.AC →
      (VLOG.process_ppa problem meta env r).result_flag ≠ VLOG.AC) :=
  ⟨VLOG.process_waveform_ext meta submission_id wenv r,
   (VLOG.process_waveform_fields meta submission_id wenv r).1,
   (VLOG.process_waveform_fields meta submission_id wenv r).2.1,
   VLOG.process_ppa_ext problem meta env r,
   fun h => VLOG.process_ppa_flag problem meta env r h⟩

/-- C9 witness: the invariant applied to a concrete run with waveform capture
enabled, a valid 512-byte trace, prior extended feedback, and a failing (WA)
incoming verdict. -/
theorem C9_demote_and_append_only_witness :
    (∃ s, ((VLOG.process_waveform { enable_waveform := true } (some "sub42")
        ⟨true, 512, true⟩ ⟨VLOG.WA, 0, none, some "[prior]"⟩).extended_feedback.getD "").data =
        ((some "[prior]" : Option String).getD "").data ++ s) ∧
    (VLOG.process_waveform { enable_waveform := true } (some "sub42")
        ⟨true, 512, true⟩ ⟨VLOG.WA, 0, none, some "[prior]"⟩).result_flag = VLOG.WA ∧
    (VLOG.process_ppa "p" { enable_waveform := true }
        ⟨⟨true, true, .resp 200 false none⟩, ⟨true, true, .resp 200 false none⟩⟩
        ⟨VLOG.WA, 0, none, some "[prior]"⟩).result_flag ≠ VLOG.AC := by
  have h := C9_demote_and_append_only { enable_waveform := true } (some "sub42")
    ⟨true, 512, true⟩ "p"
    ⟨⟨true, true, .resp 200 false none⟩, ⟨true, true, .resp 200 false none⟩⟩
    ⟨VLOG.WA, 0, none, some "[prior]"⟩
  exact ⟨h.1, h.2.1, h.2.2.2.2 (by decide)⟩

/-- C10: if the F4PGA constraint file is missing — so `_execute_f4pga`
records the internal-error state IE with a matching feedback — and the
collected failed-target list ends up non-empty (the second provider ran and
violated a configured threshold), the final verdict is the distinct
performance-limit-exceeded state PLE with its own count feedback: the later
threshold-failure override replaces the recorded internal error. -/
theorem C10_ple_overrides_ie (problem board : String) (meta : VLOG.Meta)
    (env : VLOG.PpaEnv) (r : VLOG.JudgeResult)
    (hen : meta.enable_ppa = true)
    (hb : meta.f4pga_board = some board)
    (hv : env.f4.hasVerilog = true)
    (hx : env.f4.xdcExists = false)
    (hf : (VLOG.ppa_collect problem meta env r).2.1 ≠ []) :
    (VLOG.execute_f4pga problem board env.f4 r).2.1.result_flag = VLOG.IE ∧
    (VLOG.process_ppa problem meta env r).result_flag = VLOG.PLE ∧
    (VLOG.process_ppa problem meta env r).feedback =
      some ("PPA targets not met (" ++
        toString (VLOG.ppa_collect problem meta env r).2.1.length ++ " items)") ∧
    VLOG.PLE ≠ VLOG.IE := by
  have _hboard := hb
  refine ⟨?_, (VLOG.process_ppa_failed problem meta env r hen hf).1,
    (VLOG.process_ppa_failed problem meta env r hen hf).2.2, by decide⟩
  unfold VLOG.execute_f4pga
  rw [hv, hx]
  simp

/-- C10 witness: the F4PGA XDC file is absent (IE recorded) and the OpenLane
run violates the configured power target, leaving a final PLE verdict. -/
theorem C10_ple_overrides_ie_witness :
    (VLOG.execute_f4pga "p" "b"
        ⟨true, false, .resp 200 false none⟩ ⟨VLOG.AC, 2, none, none⟩).2.1.result_flag = VLOG.IE ∧
    (VLOG.process_ppa "p"
        { enable_ppa := true, f4pga_board := some "b", openlane_pdk := some "sky130",
          openlane_power_total := some 10 }
        ⟨⟨true, false, .resp 200 false none⟩,
         ⟨true, true, .resp 200 false (some ⟨true, some ⟨.num 5, .num 100, .num 50, .num 7⟩⟩)⟩⟩
        ⟨VLOG.AC, 2, none, none⟩).result_flag = VLOG.PLE := by
  have h := C10_ple_overrides_ie "p" "b"
    { enable_ppa := true, f4pga_board := some "b", openlane_pdk := some "sky130",
      openlane_power_total := some 10 }
    ⟨⟨true, false, .resp 200 false none⟩,
     ⟨true, true, .resp 200 false (some ⟨true, some ⟨.num 5, .num 100, .num 50, .num 7⟩⟩)⟩⟩
    ⟨VLOG.AC, 2, none, none⟩ rfl rfl rfl rfl (by decide)
  exact ⟨h.1, h.2.1⟩
